import Mathlib

/-!
Verification development for an outbound AI sales-calling system
(campaign dispatch, Twilio session correlation, call lifecycle, outcome
recording).  The definitions below are a shallow embedding of the Python
sources: `campaign_manager.py`, `server.py`, `bot.py`, `call_recorder.py`,
`sales_context.py`, `utils/csv_handler.py`.  Each definition's doc comment
names the source function it embeds.
-/

/- ===== String helpers (model of Python's `in` substring test and `str.split()`) ===== -/

/-- Character-list version of "needle occurs at the start of hay". -/
def chStart : List Char → List Char → Bool
  | [], _ => true
  | _ :: _, [] => false
  | a :: as, b :: bs => a = b && chStart as bs

/-- Character-list version of "needle occurs somewhere in hay". -/
def chSub (needle : List Char) : List Char → Bool
  | [] => chStart needle []
  | b :: bs => chStart needle (b :: bs) || chSub needle bs

/-- Model of Python's `needle in hay` substring test on strings. -/
def containsSub (hay needle : String) : Bool :=
  chSub needle.toList hay.toList

/-- Model of Python's `str.lower()`, applied per character. -/
def strLower (s : String) : String :=
  String.mk (s.data.map Char.toLower)

/-- Drop leading characters satisfying `p`. -/
def dropWhileChars (p : Char → Bool) : List Char → List Char
  | [] => []
  | c :: cs => if p c then dropWhileChars p cs else c :: cs

/-- Model of Python's `str.strip()`: remove whitespace at both ends. -/
def strTrim (s : String) : String :=
  String.mk
    ((dropWhileChars Char.isWhitespace
      (dropWhileChars Char.isWhitespace s.data).reverse).reverse)

/-- Accumulator-based word splitter behind `splitWords`. -/
def wordsAux : List Char → List Char → List String
  | acc, [] => if acc.isEmpty then [] else [String.mk acc.reverse]
  | acc, c :: cs =>
      if c.isWhitespace then
        if acc.isEmpty then wordsAux [] cs
        else String.mk acc.reverse :: wordsAux [] cs
      else wordsAux (c :: acc) cs

/-- Model of Python's `s.split()`: split on whitespace runs, dropping empties. -/
def splitWords (s : String) : List String :=
  wordsAux [] s.data

/- ===== Data model: leads and configuration (campaign_manager.py, csv_handler.py) ===== -/

/-- One row of `data/leads.csv` (columns per `CSVHandler.validate_leads_csv`
plus the mutable `status` column). -/
structure Lead where
  business_name : String
  contact_number : String
  contact_name : String
  business_type : String
  company_size : String
  current_challenges : String
  best_call_time : String
  status : String
deriving DecidableEq, Repr

/-- Campaign settings read from the environment in `CampaignManager.__init__`:
concurrency cap, per-call timeout, and the business-hours window.
Times of day are minutes since midnight. -/
structure CampaignConfig where
  max_concurrent_calls : Nat
  call_timeout : Nat
  call_hours_start : Nat
  call_hours_end : Nat
deriving DecidableEq, Repr

/-- `CampaignManager._is_business_hours`: `call_hours_start <= now <= call_hours_end`,
inclusive at both ends. -/
def is_business_hours (cfg : CampaignConfig) (now : Nat) : Bool :=
  decide (cfg.call_hours_start ≤ now) && decide (now ≤ cfg.call_hours_end)

/-- Per-dispatch environment facts the code reads from the outside world while
processing one lead: the wall clock (minutes since midnight) at the moment the
dispatch's business-hours re-check runs, and the Twilio API response for the
dial (`provider_ok` is true exactly when the provider answers HTTP 201;
`provider_msg` is the error text otherwise). -/
structure LeadEnv where
  clock : Nat
  provider_ok : Bool
  provider_msg : String
deriving DecidableEq, Repr

/-- The dictionary `_make_call` returns: a `status` tag, an error `message`
when the dial failed, and the `meeting_scheduled` flag (which `_make_call`
always sets to `False` on success). -/
structure CallResult where
  status : String
  message : String
  meeting_scheduled : Bool
deriving DecidableEq, Repr

/-- Outcome rows written to `data/results.csv` by `CSVHandler.save_call_result`:
the merged lead fields, the outcome-classification fields, the metadata that
`CallRecorder.save_call_results` adds, and the `call_date` timestamp (modelled
in hours). `meeting_datetime`, `prospect_objections` and `next_action` are
optional because `CallRecorder.analyze_conversation`'s zero-message branch
omits those dictionary keys. -/
structure ResultRecord where
  lead : Lead
  call_status : String
  interest_level : String
  scheduled_meeting : Bool
  meeting_datetime : Option String
  prospect_objections : Option String
  next_action : Option String
  agent_notes : String
  call_duration : Nat
  conversation_length : Nat
  user_responses : Nat
  agent_responses : Nat
  call_date : Int
deriving DecidableEq, Repr

/-- `CampaignManager._make_call`, observable behaviour per lead: with no phone
number it returns the error dictionary `{"status": "error", "message": "No
phone number"}` without contacting the provider; otherwise it issues the
Twilio dial (`_initiate_twilio_call`) and returns `completed` (with
`meeting_scheduled := false`) on HTTP 201 or `error` with the provider's
message otherwise.  The second component records whether a provider dial
attempt was issued.  (The `active_calls` bookkeeping dictionary inside
`_make_call` is internal tracking touched by no claim and is not modelled.) -/
def make_call (lead : Lead) (env : LeadEnv) : CallResult × Bool :=
  if lead.contact_number = "" then
    ({ status := "error", message := "No phone number", meeting_scheduled := false }, false)
  else if env.provider_ok then
    ({ status := "completed", message := "", meeting_scheduled := false }, true)
  else
    ({ status := "error", message := env.provider_msg, meeting_scheduled := false }, true)

/-- Aggregate state of `CampaignManager._process_leads_batch`: the three
`nonlocal` counters, the contact numbers for which a provider dial was
actually issued (in serialization order), and the outcome records written to
the results sink during batch dispatch.  Neither `process_lead` nor
`_make_call` ever calls `csv_handler.save_call_result` or
`CallRecorder.record_failed_call`, so batch dispatch itself appends nothing
to `written_results`; result rows are written only by `CallRecorder` inside a
bot session. -/
structure BatchResult where
  attempted : Nat
  completed : Nat
  meetings : Nat
  dials : List String
  written_results : List ResultRecord
deriving DecidableEq, Repr

/-- The body of `process_lead` inside `_process_leads_batch` for one lead:
re-check the business-hours gate and return (skipping only this lead, with no
counter change) when outside the window; otherwise count the lead as
attempted, run `_make_call`, and bump `completed`/`meetings` from the result.
The `asyncio.Semaphore` limits concurrency only; counter updates are atomic
in the event loop, so the batch is modelled as a fold over one admissible
serialization of the dispatches. -/
def process_one (cfg : CampaignConfig) (acc : BatchResult) (d : Lead × LeadEnv) : BatchResult :=
  if !(is_business_hours cfg d.2.clock) then acc
  else
    let r := make_call d.1 d.2
    { attempted := acc.attempted + 1,
      completed := acc.completed + (if r.1.status = "completed" then 1 else 0),
      meetings := acc.meetings +
        (if r.1.status = "completed" && r.1.meeting_scheduled then 1 else 0),
      dials := acc.dials ++ (if r.2 then [d.1.contact_number] else []),
      written_results := acc.written_results }

/-- `CampaignManager._process_leads_batch` over the dispatches that run before
the one-hour `asyncio.wait_for` deadline (dispatches cut off by the deadline
are simply absent from the input list). -/
def process_leads_batch (cfg : CampaignConfig) (ds : List (Lead × LeadEnv)) : BatchResult :=
  ds.foldl (process_one cfg) ⟨0, 0, 0, [], []⟩

/-- Filter criteria accepted by `CampaignManager._apply_filters`. -/
structure FilterCriteria where
  business_type : Option (List String)
  company_size : Option (List String)
  max_leads : Option Nat
deriving DecidableEq, Repr

/-- `CampaignManager._apply_filters`, lifted to leads paired with their
dispatch environments.  Python truthiness is modelled faithfully: an empty
list or `max_leads = 0` is falsy, so those criteria are ignored. -/
def apply_filters (leads : List (Lead × LeadEnv)) (c : FilterCriteria) :
    List (Lead × LeadEnv) :=
  let l1 := match c.business_type with
    | some ts => if ts.isEmpty then leads else leads.filter (fun p => ts.contains p.1.business_type)
    | none => leads
  let l2 := match c.company_size with
    | some ss => if ss.isEmpty then l1 else l1.filter (fun p => ss.contains p.1.company_size)
    | none => l1
  match c.max_leads with
  | some n => if n = 0 then l2 else l2.take n
  | none => l2

/-- The mutable `CampaignManager` run state: the `campaign_running` flag plus
the counters of the most recent run (in the source these are locals of the
active `_process_leads_batch` coroutine; a competing `start_campaign`
invocation cannot touch them, which the model expresses by keeping them in
the state that the early-return path leaves unchanged). -/
structure CMState where
  campaign_running : Bool
  run_attempted : Nat
  run_completed : Nat
  run_meetings : Nat
deriving DecidableEq, Repr

/-- Environment of one `start_campaign` invocation: the configuration, what
`csv_handler.get_pending_leads` returns (paired with per-dispatch facts), and
`raises_msg = some m` when the dispatch section raises an exception with
message `m` (caught by the `except Exception` clause). -/
structure CampaignEnv where
  cfg : CampaignConfig
  pending_leads : List (Lead × LeadEnv)
  raises_msg : Option String
deriving DecidableEq, Repr

/-- The dictionaries `start_campaign` returns: either
`{"status": "error", "message": m}` or the completed summary. -/
inductive StartResponse
  | error (message : String)
  | completed (leads_processed calls_attempted calls_completed meetings_scheduled : Nat)
deriving DecidableEq, Repr

/-- `CampaignManager.start_campaign`: reject when a run is active; error when
no pending leads; otherwise apply filters, set `campaign_running`, process
the batch, clear the flag and return the summary.  Any exception inside the
`try` clears the flag and returns an error dictionary. -/
def start_campaign (st : CMState) (env : CampaignEnv) (crit : Option FilterCriteria) :
    CMState × StartResponse :=
  if st.campaign_running then (st, .error "Campaign already running")
  else if env.pending_leads.isEmpty then (st, .error "No pending leads found")
  else
    let leads := match crit with
      | some c => apply_filters env.pending_leads c
      | none => env.pending_leads
    match env.raises_msg with
    | some msg => ({ st with campaign_running := false }, .error msg)
    | none =>
      let r := process_leads_batch env.cfg leads
      ({ st with campaign_running := false,
                 run_attempted := r.attempted,
                 run_completed := r.completed,
                 run_meetings := r.meetings },
       .completed leads.length r.attempted r.completed r.meetings)

/- ===== sales_context.py: conversation analysis ===== -/

/-- The dictionary `SalesContextManager.extract_meeting_intent` returns. -/
structure MeetingIntent where
  meeting_interest : Bool
  interest_level : String
  time_mentioned : Bool
  extracted_times : List String
deriving DecidableEq, Repr

/-- `positive_indicators` list in `extract_meeting_intent`. -/
def positive_indicators : List String :=
  ["yes", "sure", "okay", "interested", "sounds good", "let\x27s do it",
   "when", "available", "schedule", "meeting", "call", "discuss"]

/-- `negative_indicators` list in `extract_meeting_intent`. -/
def negative_indicators : List String :=
  ["no", "not interested", "not now", "maybe later", "think about it",
   "not ready", "too busy", "call back"]

/-- `time_indicators` list in `extract_meeting_intent`. -/
def time_indicators : List String :=
  ["monday", "tuesday", "wednesday", "thursday", "friday",
   "morning", "afternoon", "evening", "am", "pm",
   "next week", "this week", "tomorrow"]

/-- `SalesContextManager.extract_meeting_intent`. -/
def extract_meeting_intent (conversation_text : String) : MeetingIntent :=
  let text_lower := strLower conversation_text
  let has_positive := positive_indicators.any (fun s => containsSub text_lower s)
  let has_negative := negative_indicators.any (fun s => containsSub text_lower s)
  let has_time := time_indicators.any (fun s => containsSub text_lower s)
  let interest_level :=
    if has_positive && !has_negative then (if has_time then "high" else "medium")
    else if has_negative then "low"
    else "uncertain"
  { meeting_interest := has_positive && !has_negative,
    interest_level := interest_level,
    time_mentioned := has_time,
    extracted_times := (splitWords text_lower).filter (fun w => time_indicators.contains w) }

/-- The ordered objection-keyword table of
`SalesContextManager.detect_objection_type` (Python dict insertion order). -/
def objection_keywords : List (String × List String) :=
  [("cost", ["expensive", "cost", "price", "afford", "budget", "money", "fee"]),
   ("technology", ["technical", "complicated", "reliable", "work", "break", "glitch"]),
   ("replacement", ["replace", "fire", "job", "staff", "employee", "human"]),
   ("customization", ["specific", "unique", "custom", "different", "special"]),
   ("trust", ["customers", "people", "prefer", "human", "real person", "robot"])]

/-- `SalesContextManager.detect_objection_type`: first objection type (in table
order) one of whose keywords occurs in the lowered message. -/
def detect_objection_type (user_message : String) : Option String :=
  let user_lower := strLower user_message
  (objection_keywords.find? (fun p => p.2.any (fun k => containsSub user_lower k))).map
    (fun p => p.1)

/-- The words `analyze_call_outcome` looks for to decide `answered`. -/
def answer_words : List String := ["hello", "hi", "yes", "speaking"]

/-- An outcome-classification dictionary as built by
`SalesContextManager.analyze_call_outcome` or by the failure branches of
`CallRecorder`; optional fields model dictionary keys the zero-message branch
of `CallRecorder.analyze_conversation` omits. -/
structure Outcome where
  call_status : String
  interest_level : String
  scheduled_meeting : Bool
  meeting_datetime : Option String
  prospect_objections : Option String
  next_action : Option String
  agent_notes : String
  call_duration : Option Nat
deriving DecidableEq, Repr

/-- `SalesContextManager.analyze_call_outcome`.  The `objections` loop in the
source iterates the objection table's keys and appends a type exactly when
`detect_objection_type(conversation_text)` equals it, so it collects exactly
the (at most one) detected type.  `business_type` is read with
`.get("business_type", "business")`; leads loaded from the CSV always carry
the key, so the field is used directly. -/
def analyze_call_outcome (conversation_text : String) (lead_data : Lead) : Outcome :=
  let text_lower := strLower conversation_text
  let call_status :=
    if answer_words.any (fun w => containsSub text_lower w) then "answered" else "no_answer"
  let meeting_analysis := extract_meeting_intent conversation_text
  let interest_level := meeting_analysis.interest_level
  let scheduled_meeting := meeting_analysis.meeting_interest
  let objections : List String :=
    match detect_objection_type conversation_text with
    | some t => [t]
    | none => []
  let notes0 := "Called " ++ lead_data.business_name ++ " (" ++ lead_data.business_type ++ "). "
  let notes1 := notes0 ++
    (if scheduled_meeting then "Successfully scheduled follow-up meeting. "
     else if interest_level = "high" then "High interest expressed, needs follow-up. "
     else if interest_level = "medium" then "Some interest shown, may need nurturing. "
     else "Low interest or not ready at this time. ")
  let notes2 := notes1 ++
    (if objections.isEmpty then ""
     else "Objections raised: " ++ String.intercalate ", " objections ++ ". ")
  { call_status := call_status,
    interest_level := interest_level,
    scheduled_meeting := scheduled_meeting,
    meeting_datetime := none,
    prospect_objections :=
      some (if objections.isEmpty then "none" else String.intercalate ", " objections),
    next_action :=
      some (if scheduled_meeting then "schedule_meeting"
            else if interest_level = "high" || interest_level = "medium" then "follow_up"
            else "archive"),
    agent_notes := strTrim notes2,
    call_duration := some (max 30 ((splitWords conversation_text).length * 2)) }

/- ===== call_recorder.py: conversation capture and outcome persistence ===== -/

/-- One entry of `CallRecorder.conversation_history`. -/
structure ConvEntry where
  speaker : String
  message : String
deriving DecidableEq, Repr

/-- The mutable fields of a `CallRecorder` (timestamps in abstract seconds). -/
structure RecorderState where
  lead_data : Lead
  call_start_time : Option Nat
  history : List ConvEntry
  user_messages : List String
  assistant_messages : List String
deriving DecidableEq, Repr

/-- `CallRecorder.get_full_conversation`: newline-joined
`Customer:`/`Agent:`-tagged lines. -/
def get_full_conversation (rs : RecorderState) : String :=
  String.intercalate "\n"
    (rs.history.map (fun e =>
      (if e.speaker = "user" then "Customer: " else "Agent: ") ++ e.message))

/-- `CallRecorder.get_call_duration`: 0 before `record_call_start`, otherwise
elapsed seconds. -/
def get_call_duration (rs : RecorderState) (now : Nat) : Nat :=
  match rs.call_start_time with
  | none => 0
  | some t => now - t

/-- `CallRecorder.analyze_conversation`: the distinct zero-message branch
returns the `no_conversation` dictionary (with the duration/objection keys
absent); otherwise it delegates to the sales-context analyzer. -/
def analyze_conversation (rs : RecorderState) : Outcome :=
  if strTrim (get_full_conversation rs) = "" then
    { call_status := "no_conversation",
      interest_level := "none",
      scheduled_meeting := false,
      meeting_datetime := none,
      prospect_objections := none,
      next_action := none,
      agent_notes := "No conversation recorded",
      call_duration := none }
  else analyze_call_outcome (get_full_conversation rs) rs.lead_data

/-- `CallRecorder.save_call_results`: take the override outcome when given
(else run `analyze_conversation`), overwrite `call_duration` and add the
message-count metadata, and append the merged row to the results sink via
`CSVHandler.save_call_result`, which stamps `call_date`.  (The companion
`update_lead_status` write to the leads file is not modelled; no claim
concerns it.) -/
def save_call_results (rs : RecorderState) (written : List ResultRecord)
    (override : Option Outcome) (now_dur : Nat) (now_date : Int) : List ResultRecord :=
  let oc : Outcome :=
    match override with
    | some o => o
    | none => analyze_conversation rs
  written ++
    [{ lead := rs.lead_data,
       call_status := oc.call_status,
       interest_level := oc.interest_level,
       scheduled_meeting := oc.scheduled_meeting,
       meeting_datetime := oc.meeting_datetime,
       prospect_objections := oc.prospect_objections,
       next_action := oc.next_action,
       agent_notes := oc.agent_notes,
       call_duration := get_call_duration rs now_dur,
       conversation_length := rs.history.length,
       user_responses := rs.user_messages.length,
       agent_responses := rs.assistant_messages.length,
       call_date := now_date }]

/-- `CallRecorder.record_failed_call`: build the fixed failure-shaped outcome
dictionary (status `failed`, notes carrying the failure reason) and persist it
through `save_call_results`. -/
def record_failed_call (rs : RecorderState) (written : List ResultRecord)
    (failure_reason error_details : String) (now_dur : Nat) (now_date : Int) :
    List ResultRecord :=
  let oc : Outcome :=
    { call_status := "failed",
      interest_level := "none",
      scheduled_meeting := false,
      meeting_datetime := none,
      prospect_objections := some "call_failed",
      next_action := some "retry_later",
      agent_notes := strTrim ("Call failed: " ++ failure_reason ++ ". " ++ error_details),
      call_duration := some (get_call_duration rs now_dur) }
  save_call_results rs written (some oc) now_dur now_date

/-- The `on_disconnected` handler in `bot.run_sales_bot` (`call_started` is set
to `True` at session start and never cleared, so its guard always passes): it
flattens the transcript, passes it directly to
`SalesContextManager.analyze_call_outcome` — not to
`CallRecorder.analyze_conversation` — and saves that outcome as the override. -/
def on_disconnected (rs : RecorderState) (written : List ResultRecord)
    (now_dur : Nat) (now_date : Int) : List ResultRecord :=
  let conversation_text := get_full_conversation rs
  let call_outcome := analyze_call_outcome conversation_text rs.lead_data
  save_call_results rs written (some call_outcome) now_dur now_date

/- ===== bot.py: call-lifecycle trigger race ===== -/

/-- The closure state of `run_sales_bot` relevant to the start-trigger race:
the two boolean flags, how many times the greeting was queued
(`task.queue_frames` in `start_conversation`), how many times
`record_call_start` ran, the failure reasons passed to `record_failed_call`
by the lifecycle guards, and whether `task.cancel()` was called. -/
structure BotState where
  conversation_started : Bool
  transport_connected : Bool
  greetings_queued : Nat
  call_start_records : Nat
  failure_records : List String
  task_cancelled : Bool
deriving DecidableEq, Repr

/-- Initial closure state of `run_sales_bot`
(`conversation_started = False`, `transport_connected = False`). -/
def botInit : BotState :=
  { conversation_started := false, transport_connected := false,
    greetings_queued := 0, call_start_records := 0,
    failure_records := [], task_cancelled := false }

/-- `start_conversation` in `run_sales_bot`: gated by the single-use
`conversation_started` flag and by `transport_connected`; when the gate
passes it sets the flag (before any await point, so the check-and-set is
atomic in the event loop), records the call start, and queues the greeting
line. -/
def start_conversation (s : BotState) : BotState :=
  if !s.conversation_started && s.transport_connected then
    { s with conversation_started := true,
             call_start_records := s.call_start_records + 1,
             greetings_queued := s.greetings_queued + 1 }
  else s

/-- The three competing start triggers of `run_sales_bot`:
the `on_connected` transport event, the 2-second `conversation_safeguard`
timer, and the 30-second `connection_timeout` guard. -/
inductive BotEv
  | connect
  | safeguard
  | timeout
deriving DecidableEq, Repr

/-- One trigger firing, exactly as the three handlers are written:
`on_connected` sets `transport_connected` and calls `start_conversation`
(nothing in it checks whether the call has ended); `conversation_safeguard`
forces `transport_connected := True` and starts the conversation if it has
not started; `connection_timeout` records a `connection_timeout` failure and
cancels the pipeline task only if the transport is still unconnected
(its `call_started` guard is always true). -/
def bot_step (s : BotState) : BotEv → BotState
  | .connect => start_conversation { s with transport_connected := true }
  | .safeguard =>
      if !s.conversation_started then
        start_conversation { s with transport_connected := true }
      else s
  | .timeout =>
      if !s.transport_connected then
        { s with failure_records := s.failure_records ++ ["connection_timeout"],
                 task_cancelled := true }
      else s

/-- Run a firing sequence from the initial closure state.  Each handler body
runs atomically here; the only awaits inside them sit outside the
flag-guarded critical sections, so any real interleaving coincides with some
such sequence. -/
def run_bot (evs : List BotEv) : BotState :=
  evs.foldl bot_step botInit

/-- Auxiliary for `wf_fires`: the flag records whether the safeguard has
already fired. -/
def wf_aux : Bool → List BotEv → Bool
  | _, [] => true
  | _, .safeguard :: rest => wf_aux true rest
  | seen, .timeout :: rest => seen && wf_aux seen rest
  | seen, .connect :: rest => wf_aux seen rest

/-- Firing sequences the code can actually produce: `conversation_safeguard`
(2 s) and `connection_timeout` (30 s) are both scheduled unconditionally
before the pipeline runs and are cancelled together in the `finally` block,
so in every execution in which the timeout body runs, the safeguard body ran
earlier.  Orders of `connect` relative to the timers are unconstrained. -/
def wf_fires (evs : List BotEv) : Bool :=
  wf_aux false evs

/- ===== server.py: session registry and identifier correlation ===== -/

/-- The per-call dictionary stored in `call_sessions` by `twilio_twiml`
(`timestamp` omitted; no claim concerns it).  `call_sid` is `None` when the
TwiML request carried no `CallSid`. -/
structure SessionData where
  lead_data : String
  call_sid : Option String
  call_id : String
deriving DecidableEq, Repr

/-- Python `dict` assignment `m[k] = v`: replace in place if the key exists
(keeping its position), else append.  Lookup is by first (unique) match. -/
def dict_set {α : Type} : List (String × α) → String → α → List (String × α)
  | [], k, v => [(k, v)]
  | (k0, v0) :: rest, k, v =>
      if k0 = k then (k, v) :: rest else (k0, v0) :: dict_set rest k v

/-- The session-storing step of `twilio_twiml` (server.py lines 160-170): when
the request carries non-empty `lead_data` and `call_id`, build one
`session_data` dictionary and store it under `call_id`, and additionally
under `CallSid` when that is present — the same object under both keys.
Empty strings model absent/falsy parameters. -/
def twiml_store (sessions : List (String × SessionData))
    (lead_data call_id call_sid : String) : List (String × SessionData) :=
  if lead_data ≠ "" && call_id ≠ "" then
    let sd : SessionData :=
      { lead_data := lead_data,
        call_sid := if call_sid = "" then none else some call_sid,
        call_id := call_id }
    let s1 := dict_set sessions call_id sd
    if call_sid ≠ "" then dict_set s1 call_sid sd else s1
  else sessions

/-- The session-resolution logic of `twilio_stream_websocket`
(server.py lines 360-378): strategy 1 is a direct `call_sessions[call_sid]`
lookup (falling through when the stored `lead_data` is falsy); strategy 2
scans all sessions for one whose embedded `call_sid` field matches.  Returns
`(lead_data, call_id)` on success. -/
def ws_resolve (sessions : List (String × SessionData)) (call_sid : String) :
    Option (String × String) :=
  let direct : Option (String × String) :=
    match sessions.lookup call_sid with
    | some sd => if sd.lead_data ≠ "" then some (sd.lead_data, sd.call_id) else none
    | none => none
  match direct with
  | some r => some r
  | none =>
    match sessions.find? (fun p => p.2.call_sid = some call_sid) with
    | some p => some (p.2.lead_data, p.2.call_id)
    | none => none

/-- The per-call entry `twilio_stream_websocket` stores in the module-level
`active_calls` map once the Twilio start message arrives: this is the only
place the provider stream identifier is recorded, and it is stored as a
value under the `call_sid` key, never as a lookup key of any map. -/
structure ActiveCall where
  stream_sid : String
  call_id : String
  lead_data : String
  call_status : String
deriving DecidableEq, Repr

/-- `active_calls[call_sid] = {...}` in `twilio_stream_websocket`
(server.py lines 399-405). -/
def active_store (active : List (String × ActiveCall))
    (call_sid stream_sid call_id lead_data : String) : List (String × ActiveCall) :=
  dict_set active call_sid
    { stream_sid := stream_sid, call_id := call_id,
      lead_data := lead_data, call_status := "connected" }

/- ===== campaign_manager.py: retry path and the attribute shadowing ===== -/

/-- `retry_failed_calls`'s row filter (campaign_manager.py lines 327-335):
keep exactly the rows whose `call_status` is `failed` and whose `call_date`
is strictly newer than `now - max_age_hours`. -/
def select_retry_rows (rows : List ResultRecord) (now max_age_hours : Int) :
    List ResultRecord :=
  rows.filter (fun r => r.call_status = "failed" && decide (now - max_age_hours < r.call_date))

/-- The lead-shape reconstruction in `retry_failed_calls` (lines 341-353):
copy the lead columns back out of the result row and set `status := "retry"`. -/
def to_retry_lead (r : ResultRecord) : Lead :=
  { business_name := r.lead.business_name,
    contact_number := r.lead.contact_number,
    contact_name := r.lead.contact_name,
    business_type := r.lead.business_type,
    company_size := r.lead.company_size,
    current_challenges := r.lead.current_challenges,
    best_call_time := r.lead.best_call_time,
    status := "retry" }

/-- The dictionaries `retry_failed_calls` returns. -/
inductive RetryResponse
  | disabled (message : String)
  | info (message : String)
  | completed (retried_calls successful_retries : Nat)
deriving DecidableEq, Repr

/-- The body of `CampaignManager.retry_failed_calls` (what the method would do
if invoked): the leading guard reads `self.retry_failed_calls`, which after
`__init__` is the boolean configuration attribute; then select the recent
failed rows, rebuild them into leads, and funnel them through the same
`_process_leads_batch` dispatch path used by `start_campaign`. -/
def retry_failed_calls_body (retry_attr : Bool) (cfg : CampaignConfig)
    (rows : List ResultRecord) (now max_age_hours : Int)
    (env : Lead → LeadEnv) : RetryResponse :=
  if !retry_attr then .disabled "Retry disabled in configuration"
  else if rows.isEmpty then .info "No results to retry"
  else
    let failed := select_retry_rows rows now max_age_hours
    if failed.isEmpty then .info "No recent failed calls to retry"
    else
      let retry_leads := failed.map to_retry_lead
      let r := process_leads_batch cfg (retry_leads.map (fun l => (l, env l)))
      .completed retry_leads.length r.completed

/-- Python attribute values relevant to `CampaignManager` name resolution. -/
inductive PyAttrVal
  | pyBool (b : Bool)
  | pyNat (n : Nat)
  | pyStr (s : String)
  | pyMethod (name : String)
deriving DecidableEq, Repr

/-- The `CampaignManager` class dictionary: its `def`-bound methods. -/
def campaign_manager_class_attrs : List (String × PyAttrVal) :=
  [("start_campaign", .pyMethod "start_campaign"),
   ("stop_campaign", .pyMethod "stop_campaign"),
   ("get_campaign_status", .pyMethod "get_campaign_status"),
   ("retry_failed_calls", .pyMethod "retry_failed_calls"),
   ("schedule_campaign", .pyMethod "schedule_campaign")]

/-- The instance dictionary after `CampaignManager.__init__` (the
environment-derived settings, with defaults; `retry_enabled_env` is the
parsed `RETRY_FAILED_CALLS` value).  Line 32 of campaign_manager.py binds the
*configuration boolean* to the name `retry_failed_calls` on the instance. -/
def init_instance_attrs (retry_enabled_env : Bool) : List (String × PyAttrVal) :=
  [("max_concurrent_calls", .pyNat 3),
   ("call_timeout", .pyNat 300),
   ("retry_failed_calls", .pyBool retry_enabled_env),
   ("max_retries", .pyNat 2),
   ("campaign_running", .pyBool false)]

/-- Python attribute resolution for a plain method on an instance: the
instance dictionary shadows the class dictionary (functions are non-data
descriptors). -/
def py_getattr (inst cls : List (String × PyAttrVal)) (name : String) : Option PyAttrVal :=
  match inst.lookup name with
  | some v => some v
  | none => cls.lookup name

/-- Whether calling the attribute can succeed: only methods are callable;
calling a `bool` raises `TypeError`. -/
def py_is_callable : PyAttrVal → Bool
  | .pyMethod _ => true
  | _ => false

/- ===== Concrete instances used by counterexamples and witnesses ===== -/

/-- The default configuration: cap 3, timeout 300 s, business hours
09:00-17:00 (minutes 540-1020). -/
def std_cfg : CampaignConfig := ⟨3, 300, 540, 1020⟩

/-- A lead matching the spec scenario's Restaurant lead with a phone number. -/
def lead_restaurant : Lead :=
  ⟨"Acme Grill", "+15551112222", "Pat Lee", "Restaurant", "Small",
   "rush orders", "14:00-16:00", "pending"⟩

/-- A Healthcare lead with an empty phone number (the failing dial of the
spec scenario). -/
def lead_health_nophone : Lead :=
  ⟨"Valley Dental", "", "Sam Roe", "Healthcare", "Small",
   "scheduling", "12:00-14:00", "pending"⟩

/-- A Healthcare lead with a phone number. -/
def lead_health : Lead :=
  ⟨"Valley Dental", "+15553334444", "Sam Roe", "Healthcare", "Small",
   "scheduling", "12:00-14:00", "pending"⟩

/-- The spec scenario's two-lead campaign, both dispatches inside business
hours (10:00) with an accepting provider. -/
def c5_dispatches : List (Lead × LeadEnv) :=
  [(lead_restaurant, ⟨600, true, ""⟩), (lead_health_nophone, ⟨600, true, ""⟩)]

/-- A recorder for a session that captured zero conversation messages. -/
def empty_recorder : RecorderState := ⟨lead_restaurant, some 0, [], [], []⟩

/-- A `failed` result row stamped at hour 98 (2 hours before `now = 100`). -/
def c8_failed_row : ResultRecord :=
  { lead := lead_health, call_status := "failed", interest_level := "none",
    scheduled_meeting := false, meeting_datetime := none,
    prospect_objections := some "call_failed", next_action := some "retry_later",
    agent_notes := "Call failed: connection_timeout. Media stream failed to connect",
    call_duration := 0, conversation_length := 0, user_responses := 0,
    agent_responses := 0, call_date := 98 }

/-- A `completed` result row (not retry-eligible). -/
def c8_completed_row : ResultRecord :=
  { lead := lead_restaurant, call_status := "completed", interest_level := "high",
    scheduled_meeting := true, meeting_datetime := none,
    prospect_objections := some "none", next_action := some "schedule_meeting",
    agent_notes := "Called Acme Grill (Restaurant). Successfully scheduled follow-up meeting.",
    call_duration := 120, conversation_length := 6, user_responses := 3,
    agent_responses := 3, call_date := 50 }

/-- Dispatch environment for retried leads: in-hours clock, accepting provider. -/
def c8_env : Lead → LeadEnv := fun _ => ⟨600, true, ""⟩

/- ===== Helper lemmas: batch-fold characterization ===== -/

/-- Batch dispatch never writes a result record: neither `process_lead` nor
`_make_call` touches the results sink. -/
theorem batch_foldl_written (cfg : CampaignConfig) :
    ∀ (ds : List (Lead × LeadEnv)) (acc : BatchResult),
      (ds.foldl (process_one cfg) acc).written_results = acc.written_results
  | [], _ => rfl
  | d :: ds, acc => by
      rw [List.foldl_cons, batch_foldl_written cfg ds]
      unfold process_one
      split <;> rfl

/-- The `attempted` counter counts exactly the dispatches whose business-hours
re-check passed. -/
theorem batch_foldl_attempted (cfg : CampaignConfig) :
    ∀ (ds : List (Lead × LeadEnv)) (acc : BatchResult),
      (ds.foldl (process_one cfg) acc).attempted =
        acc.attempted + (ds.filter (fun d => is_business_hours cfg d.2.clock)).length
  | [], _ => by simp
  | d :: ds, acc => by
      rw [List.foldl_cons, batch_foldl_attempted cfg ds]
      by_cases h : is_business_hours cfg d.2.clock = true
      · simp [process_one, h, List.filter_cons]
        omega
      · simp [process_one, h, List.filter_cons, Bool.not_eq_true _ ▸ h]

/-- The `completed` counter counts exactly the in-hours dispatches with a
phone number and an accepting provider. -/
theorem batch_foldl_completed (cfg : CampaignConfig) :
    ∀ (ds : List (Lead × LeadEnv)) (acc : BatchResult),
      (ds.foldl (process_one cfg) acc).completed =
        acc.completed + (ds.filter (fun d => is_business_hours cfg d.2.clock &&
          (decide (d.1.contact_number ≠ "") && d.2.provider_ok))).length
  | [], _ => by simp
  | d :: ds, acc => by
      rw [List.foldl_cons, batch_foldl_completed cfg ds]
      by_cases h : is_business_hours cfg d.2.clock = true
      · by_cases h2 : d.1.contact_number = ""
        · simp [process_one, make_call, h, h2, List.filter_cons]
        · by_cases h3 : d.2.provider_ok = true
          · simp [process_one, make_call, h, h2, h3, List.filter_cons]
            omega
          · simp [process_one, make_call, h, h2, h3, List.filter_cons]
      · simp [process_one, h, List.filter_cons]

/-- The `meetings` counter never moves: `_make_call` always returns
`meeting_scheduled = False`. -/
theorem batch_foldl_meetings (cfg : CampaignConfig) :
    ∀ (ds : List (Lead × LeadEnv)) (acc : BatchResult),
      (ds.foldl (process_one cfg) acc).meetings = acc.meetings
  | [], _ => rfl
  | d :: ds, acc => by
      rw [List.foldl_cons, batch_foldl_meetings cfg ds]
      by_cases h : is_business_hours cfg d.2.clock = true
      · by_cases h2 : d.1.contact_number = ""
        · simp [process_one, make_call, h, h2]
        · by_cases h3 : d.2.provider_ok = true
          · simp [process_one, make_call, h, h2, h3]
          · simp [process_one, make_call, h, h2, h3]
      · simp [process_one, h]

/-- A provider dial is issued exactly for the in-hours dispatches whose lead
has a phone number. -/
theorem batch_foldl_dials (cfg : CampaignConfig) :
    ∀ (ds : List (Lead × LeadEnv)) (acc : BatchResult),
      (ds.foldl (process_one cfg) acc).dials =
        acc.dials ++ (ds.filter (fun d => is_business_hours cfg d.2.clock &&
          decide (d.1.contact_number ≠ ""))).map (fun d => d.1.contact_number)
  | [], _ => by simp
  | d :: ds, acc => by
      rw [List.foldl_cons, batch_foldl_dials cfg ds]
      by_cases h : is_business_hours cfg d.2.clock = true
      · by_cases h2 : d.1.contact_number = ""
        · simp [process_one, make_call, h, h2, List.filter_cons]
        · by_cases h3 : d.2.provider_ok = true
          · simp [process_one, make_call, h, h2, h3, List.filter_cons]
          · simp [process_one, make_call, h, h2, h3, List.filter_cons]
      · simp [process_one, h, List.filter_cons]

/-- Filtering by a conjunction whose left conjunct holds on every element is
filtering by the right conjunct. -/
theorem filter_and_left_true {α : Type} (p q : α → Bool) :
    ∀ (l : List α), (∀ a ∈ l, p a = true) →
      l.filter (fun a => p a && q a) = l.filter q
  | [], _ => rfl
  | a :: l, h => by
      have hpa : p a = true := h a (List.mem_cons_self a l)
      have ih := filter_and_left_true p q l (fun x hx => h x (List.mem_cons_of_mem a hx))
      simp [List.filter_cons, hpa, ih]

/-- Filtering by a predicate true on every element is the identity. -/
theorem filter_all_true {α : Type} (p : α → Bool) :
    ∀ (l : List α), (∀ a ∈ l, p a = true) → l.filter p = l
  | [], _ => rfl
  | a :: l, h => by
      have hpa : p a = true := h a (List.mem_cons_self a l)
      have ih := filter_all_true p l (fun x hx => h x (List.mem_cons_of_mem a hx))
      simp [List.filter_cons, hpa, ih]

/- ===== Claim C4 ===== -/

/-- Claim C4 as stated is false: when a dispatch's business-hours re-check
finds the clock outside the window, the remaining queue is NOT abandoned.
Concretely, in a two-dispatch run whose first re-check happens at 08:00
(outside 09:00-17:00) and whose second happens at 10:00, the second lead is
still dialed and counted (`attempted = 1`, its number in `dials`), whereas
the claim predicts that no further lead is dialed or counted after the first
failed re-check. -/
theorem c4_counterexample :
    process_leads_batch std_cfg
      [(lead_restaurant, ⟨480, true, ""⟩), (lead_health, ⟨600, true, ""⟩)] =
      { attempted := 1, completed := 1, meetings := 0,
        dials := ["+15553334444"], written_results := [] } := by
  decide

/-- Claim C4, amended: a dispatch whose business-hours re-check fails skips
only that lead — it is not counted as attempted and no dial is issued for
it — while every other dispatch is processed on its own re-check, so a later
in-window dispatch is still dialed; the run is not ended early.  `attempted`
counts exactly the dispatches whose re-check passed, and a provider dial is
issued exactly for the passing dispatches that have a phone number. -/
theorem c4_amended_theorem (cfg : CampaignConfig) (ds : List (Lead × LeadEnv)) :
    (process_leads_batch cfg ds).attempted =
      (ds.filter (fun d => is_business_hours cfg d.2.clock)).length ∧
    (process_leads_batch cfg ds).dials =
      (ds.filter (fun d => is_business_hours cfg d.2.clock &&
        decide (d.1.contact_number ≠ ""))).map (fun d => d.1.contact_number) := by
  constructor
  · rw [process_leads_batch, batch_foldl_attempted]
    simp
  · rw [process_leads_batch, batch_foldl_dials]
    simp

/-- Witness for `c4_amended_theorem` at the counterexample's dispatch list. -/
theorem c4_amended_witness :
    (process_leads_batch std_cfg
        [(lead_restaurant, ⟨480, true, ""⟩), (lead_health, ⟨600, true, ""⟩)]).attempted =
      ([(lead_restaurant, (⟨480, true, ""⟩ : LeadEnv)), (lead_health, ⟨600, true, ""⟩)].filter
        (fun d => is_business_hours std_cfg d.2.clock)).length ∧
    (process_leads_batch std_cfg
        [(lead_restaurant, ⟨480, true, ""⟩), (lead_health, ⟨600, true, ""⟩)]).dials =
      ([(lead_restaurant, (⟨480, true, ""⟩ : LeadEnv)), (lead_health, ⟨600, true, ""⟩)].filter
        (fun d => is_business_hours std_cfg d.2.clock &&
          decide (d.1.contact_number ≠ ""))).map (fun d => d.1.contact_number) :=
  c4_amended_theorem std_cfg
    [(lead_restaurant, ⟨480, true, ""⟩), (lead_health, ⟨600, true, ""⟩)]

/- ===== Claim C5 ===== -/

/-- Claim C5 (confirmed): with every dispatch inside business hours, every
lead is counted as attempted; a lead whose dial fails (empty phone number or
provider rejection) is not counted as completed; and a provider dial is
issued for every other lead (dispatch continues past failures).
Instantiated at the spec scenario by `c5_witness`: attempted = 2, one
failure, the other dial proceeds. -/
theorem c5_theorem (cfg : CampaignConfig) (ds : List (Lead × LeadEnv))
    (h : ∀ d ∈ ds, is_business_hours cfg d.2.clock = true) :
    (process_leads_batch cfg ds).attempted = ds.length ∧
    (process_leads_batch cfg ds).completed =
      (ds.filter (fun d => decide (d.1.contact_number ≠ "") && d.2.provider_ok)).length ∧
    (process_leads_batch cfg ds).dials =
      (ds.filter (fun d => decide (d.1.contact_number ≠ ""))).map
        (fun d => d.1.contact_number) := by
  refine ⟨?_, ?_, ?_⟩
  · rw [process_leads_batch, batch_foldl_attempted,
        filter_all_true (fun d => is_business_hours cfg d.2.clock) ds h]
    simp
  · rw [process_leads_batch, batch_foldl_completed,
        filter_and_left_true (fun d => is_business_hours cfg d.2.clock)
          (fun d => decide (d.1.contact_number ≠ "") && d.2.provider_ok) ds h]
    simp
  · rw [process_leads_batch, batch_foldl_dials,
        filter_and_left_true (fun d => is_business_hours cfg d.2.clock)
          (fun d => decide (d.1.contact_number ≠ "")) ds h]
    simp

/-- Witness for `c5_theorem` at the spec scenario (two leads, one with an
empty phone number, cap 3): the hypotheses hold and the summary reports
attempted = 2, completed = 1, with exactly the one possible dial issued. -/
theorem c5_witness :
    (∀ d ∈ c5_dispatches, is_business_hours std_cfg d.2.clock = true) ∧
    ((process_leads_batch std_cfg c5_dispatches).attempted = c5_dispatches.length ∧
     (process_leads_batch std_cfg c5_dispatches).completed =
       (c5_dispatches.filter (fun d => decide (d.1.contact_number ≠ "") &&
         d.2.provider_ok)).length ∧
     (process_leads_batch std_cfg c5_dispatches).dials =
       (c5_dispatches.filter (fun d => decide (d.1.contact_number ≠ ""))).map
         (fun d => d.1.contact_number)) ∧
    (process_leads_batch std_cfg c5_dispatches).attempted = 2 ∧
    (process_leads_batch std_cfg c5_dispatches).completed = 1 ∧
    (process_leads_batch std_cfg c5_dispatches).dials = ["+15551112222"] :=
  ⟨by decide, c5_theorem std_cfg c5_dispatches (by decide), by decide, by decide, by decide⟩

/- ===== Claim C6 ===== -/

/-- Claim C6 as stated is false: a dial failure does not converge to a
written outcome record.  Dispatching the lead with the missing phone number
counts it as attempted, `_make_call` returns the error dictionary, dispatch
would continue — but nothing is appended to the results sink
(`written_results = []`), so no record with `call_status = failed` exists
for the failed dial. -/
theorem c6_counterexample :
    process_leads_batch std_cfg [(lead_health_nophone, ⟨600, true, ""⟩)] =
      { attempted := 1, completed := 0, meetings := 0,
        dials := [], written_results := [] } ∧
    (make_call lead_health_nophone ⟨600, true, ""⟩).1 =
      { status := "error", message := "No phone number", meeting_scheduled := false } := by
  decide

/-- Claim C6, amended: campaign-side dial failures write no outcome record at
all (batch dispatch never appends to the results sink); it is only the
per-session failure paths inside a bot session (transport error, connection
timeout, pipeline error) that converge, via `record_failed_call`, to a
written outcome record with `call_status = "failed"` whose notes carry the
failure reason. -/
theorem c6_amended_theorem :
    (∀ (cfg : CampaignConfig) (ds : List (Lead × LeadEnv)),
      (process_leads_batch cfg ds).written_results = []) ∧
    (∀ (rs : RecorderState) (written : List ResultRecord)
       (reason details : String) (d : Nat) (cd : Int),
      record_failed_call rs written reason details d cd =
        written ++
          [{ lead := rs.lead_data,
             call_status := "failed",
             interest_level := "none",
             scheduled_meeting := false,
             meeting_datetime := none,
             prospect_objections := some "call_failed",
             next_action := some "retry_later",
             agent_notes := strTrim ("Call failed: " ++ reason ++ ". " ++ details),
             call_duration := get_call_duration rs d,
             conversation_length := rs.history.length,
             user_responses := rs.user_messages.length,
             agent_responses := rs.assistant_messages.length,
             call_date := cd }]) :=
  ⟨fun cfg ds => batch_foldl_written cfg ds _,
   fun _ _ _ _ _ _ => rfl⟩

/-- Witness for `c6_amended_theorem`: the no-phone dispatch writes nothing,
while a session-side `connection_timeout` failure writes the failed record. -/
theorem c6_amended_witness :
    (process_leads_batch std_cfg [(lead_health_nophone, ⟨600, true, ""⟩)]).written_results
      = [] ∧
    record_failed_call empty_recorder [] "connection_timeout"
        "Media stream failed to connect" 42 7 =
      [] ++
        [{ lead := empty_recorder.lead_data,
           call_status := "failed",
           interest_level := "none",
           scheduled_meeting := false,
           meeting_datetime := none,
           prospect_objections := some "call_failed",
           next_action := some "retry_later",
           agent_notes :=
             strTrim ("Call failed: " ++ "connection_timeout" ++ ". " ++
               "Media stream failed to connect"),
           call_duration := get_call_duration empty_recorder 42,
           conversation_length := empty_recorder.history.length,
           user_responses := empty_recorder.user_messages.length,
           agent_responses := empty_recorder.assistant_messages.length,
           call_date := 7 }] :=
  ⟨c6_amended_theorem.1 std_cfg [(lead_health_nophone, ⟨600, true, ""⟩)],
   c6_amended_theorem.2 empty_recorder [] "connection_timeout"
     "Media stream failed to connect" 42 7⟩

/- ===== Helper lemmas: bot lifecycle machine ===== -/

/-- Invariant of the `run_sales_bot` closure state: the greeting is queued and
the call start recorded exactly when the started flag is set (the single-use
gate), and a started conversation implies a connected transport. -/
def bot_inv (s : BotState) : Prop :=
  s.greetings_queued = (if s.conversation_started then 1 else 0) ∧
  s.call_start_records = (if s.conversation_started then 1 else 0) ∧
  (s.conversation_started = true → s.transport_connected = true)

/-- `bot_inv` holds initially. -/
theorem bot_inv_init : bot_inv botInit := by
  refine ⟨rfl, rfl, ?_⟩
  intro h
  simp [botInit] at h

/-- Each trigger firing preserves `bot_inv`. -/
theorem bot_inv_step (s : BotState) (e : BotEv) (h : bot_inv s) : bot_inv (bot_step s e) := by
  obtain ⟨h1, h2, h3⟩ := h
  obtain ⟨cs, tc, g, c, fr, tk⟩ := s
  simp only [bot_inv, bot_step, start_conversation] at *
  cases e <;> cases cs <;> cases tc <;> simp_all

/-- `bot_inv` holds after any firing sequence. -/
theorem bot_inv_foldl : ∀ (evs : List BotEv) (s : BotState),
    bot_inv s → bot_inv (evs.foldl bot_step s)
  | [], _, h => h
  | e :: evs, s, h => bot_inv_foldl evs (bot_step s e) (bot_inv_step s e h)

/-- The started flag is never cleared by a trigger. -/
theorem started_mono_step (s : BotState) (e : BotEv)
    (h : s.conversation_started = true) : (bot_step s e).conversation_started = true := by
  cases e <;> simp [bot_step, start_conversation, h]
  · cases ht : s.transport_connected <;> simp [h]

/-- The started flag is never cleared by a firing sequence. -/
theorem started_mono_foldl : ∀ (evs : List BotEv) (s : BotState),
    s.conversation_started = true → (evs.foldl bot_step s).conversation_started = true
  | [], _, h => h
  | e :: evs, s, h => started_mono_foldl evs (bot_step s e) (started_mono_step s e h)

/-- `connect` and `safeguard` leave failure records and cancellation alone. -/
theorem bot_step_failure_eq (s : BotState) :
    ((bot_step s BotEv.connect).failure_records = s.failure_records ∧
     (bot_step s BotEv.connect).task_cancelled = s.task_cancelled) ∧
    ((bot_step s BotEv.safeguard).failure_records = s.failure_records ∧
     (bot_step s BotEv.safeguard).task_cancelled = s.task_cancelled) := by
  refine ⟨⟨?_, ?_⟩, ⟨?_, ?_⟩⟩ <;>
    simp [bot_step, start_conversation] <;> split <;> simp

/-- Key safety lemma for well-formed firing sequences, tracking the
`wf_aux` flag: if safeguard-seen implies the conversation is started and the
transport connected, then running the rest of the sequence records no
failure, cancels nothing, and ends started whenever a timeout occurs in it. -/
theorem bot_wf_run : ∀ (evs : List BotEv) (s : BotState) (seen : Bool),
    wf_aux seen evs = true →
    (seen = true → s.conversation_started = true ∧ s.transport_connected = true) →
    bot_inv s →
    s.failure_records = [] → s.task_cancelled = false →
    (evs.foldl bot_step s).failure_records = [] ∧
    (evs.foldl bot_step s).task_cancelled = false ∧
    (BotEv.timeout ∈ evs → (evs.foldl bot_step s).conversation_started = true)
  | [], s, seen, _, _, _, hf, hc => ⟨hf, hc, by intro h; cases h⟩
  | .connect :: evs, s, seen, hwf, hseen, hinv, hf, hc => by
      have hwf' : wf_aux seen evs = true := hwf
      have hstep := (bot_step_failure_eq s).1
      have hseen' : seen = true →
          (bot_step s BotEv.connect).conversation_started = true ∧
          (bot_step s BotEv.connect).transport_connected = true := by
        intro h
        obtain ⟨hs1, _⟩ := hseen h
        refine ⟨started_mono_step s _ hs1, ?_⟩
        simp [bot_step, start_conversation]
        split <;> simp
      have ih := bot_wf_run evs (bot_step s BotEv.connect) seen hwf' hseen'
        (bot_inv_step s _ hinv) (hstep.1.trans hf) (hstep.2.trans hc)
      refine ⟨ih.1, ih.2.1, ?_⟩
      intro hmem
      rcases List.mem_cons.mp hmem with h | h
      · cases h
      · exact ih.2.2 h
  | .safeguard :: evs, s, seen, hwf, hseen, hinv, hf, hc => by
      have hwf' : wf_aux true evs = true := hwf
      have hstep := (bot_step_failure_eq s).2
      have hsg : (bot_step s BotEv.safeguard).conversation_started = true ∧
          (bot_step s BotEv.safeguard).transport_connected = true := by
        cases hcs : s.conversation_started
        · simp [bot_step, start_conversation, hcs]
        · have ht := hinv.2.2 hcs
          simp [bot_step, hcs, ht]
      have ih := bot_wf_run evs (bot_step s BotEv.safeguard) true hwf'
        (fun _ => hsg) (bot_inv_step s _ hinv) (hstep.1.trans hf) (hstep.2.trans hc)
      refine ⟨ih.1, ih.2.1, ?_⟩
      intro hmem
      rcases List.mem_cons.mp hmem with h | h
      · cases h
      · exact ih.2.2 h
  | .timeout :: evs, s, seen, hwf, hseen, hinv, hf, hc => by
      have hparts : seen = true ∧ wf_aux seen evs = true := by
        have : (seen && wf_aux seen evs) = true := hwf
        exact Bool.and_eq_true_iff.mp this
      obtain ⟨hs, ht⟩ := hseen hparts.1
      have hnoop : bot_step s BotEv.timeout = s := by
        simp [bot_step, ht]
      rw [List.foldl_cons, hnoop]
      have ih := bot_wf_run evs s seen hparts.2 hseen hinv hf hc
      refine ⟨ih.1, ih.2.1, ?_⟩
      intro _
      exact started_mono_foldl evs s hs

/-- A connect event arriving when the conversation has already started and
the transport is already connected changes nothing. -/
theorem connect_noop (s : BotState) (h1 : s.conversation_started = true)
    (h2 : s.transport_connected = true) : bot_step s BotEv.connect = s := by
  cases s
  simp_all [bot_step, start_conversation]

/- ===== Claim C2 ===== -/

/-- Claim C2 (confirmed): across every firing sequence of the three start
triggers, the greeting is queued at most once and the call-start transition
happens at most once; and for every non-empty sequence the code can actually
produce (`wf_fires`: the 30-second timeout body never runs before the
2-second safeguard body, both being scheduled and cancelled together), the
conversation transitions to started exactly once and the opening line is
queued exactly once — all gated by the single-use `conversation_started`
flag. -/
theorem c2_theorem (evs : List BotEv) :
    (run_bot evs).greetings_queued ≤ 1 ∧
    (run_bot evs).call_start_records ≤ 1 ∧
    (wf_fires evs = true → evs ≠ [] →
      (run_bot evs).greetings_queued = 1 ∧ (run_bot evs).call_start_records = 1) := by
  have hinv := bot_inv_foldl evs botInit bot_inv_init
  obtain ⟨h1, h2, _⟩ := hinv
  refine ⟨?_, ?_, ?_⟩
  · simp only [run_bot]
    rw [h1]; split <;> simp
  · simp only [run_bot]
    rw [h2]; split <;> simp
  · intro hwf hne
    have hstarted : (run_bot evs).conversation_started = true := by
      match evs, hne with
      | .connect :: rest, _ =>
          exact started_mono_foldl rest (bot_step botInit .connect)
            (by simp [bot_step, start_conversation, botInit])
      | .safeguard :: rest, _ =>
          exact started_mono_foldl rest (bot_step botInit .safeguard)
            (by simp [bot_step, start_conversation, botInit])
      | .timeout :: rest, _ =>
          exact absurd hwf (by simp [wf_fires, wf_aux])
    rw [run_bot] at hstarted
    exact ⟨h1.trans (by simp [hstarted]), h2.trans (by simp [hstarted])⟩

/-- Witness for `c2_theorem` on the sequence where all three triggers fire
(connect first, then the safeguard, then the timeout). -/
theorem c2_witness :
    wf_fires [BotEv.connect, BotEv.safeguard, BotEv.timeout] = true ∧
    [BotEv.connect, BotEv.safeguard, BotEv.timeout] ≠ [] ∧
    (run_bot [BotEv.connect, BotEv.safeguard, BotEv.timeout]).greetings_queued = 1 ∧
    (run_bot [BotEv.connect, BotEv.safeguard, BotEv.timeout]).call_start_records = 1 :=
  ⟨by decide, by decide,
   (c2_theorem [BotEv.connect, BotEv.safeguard, BotEv.timeout]).2.2 (by decide) (by decide)⟩

/- ===== Claim C3 ===== -/

/-- Claim C3 as stated is false on the code.  In the firing sequence
`[safeguard, timeout, connect]` — a sequence the code actually produces,
in which both the connection-timeout timer and the connect-event eventually
fire and the timeout fires first — the session does NOT end with reason
`connection_timeout` (no failure record is written, nothing is cancelled)
and a conversation IS started: the 2-second safeguard has already forced
`transport_connected = True`, so the 30-second timeout's guard fails. -/
theorem c3_counterexample :
    wf_fires [BotEv.safeguard, BotEv.timeout, BotEv.connect] = true ∧
    (run_bot [BotEv.safeguard, BotEv.timeout, BotEv.connect]).failure_records = [] ∧
    (run_bot [BotEv.safeguard, BotEv.timeout, BotEv.connect]).task_cancelled = false ∧
    (run_bot [BotEv.safeguard, BotEv.timeout, BotEv.connect]).conversation_started = true := by
  decide

/-- Claim C3, amended: in every firing sequence the code can produce in which
the timeout timer fires (necessarily after the safeguard), the timeout is a
no-op — no `connection_timeout` failure is recorded and the pipeline task is
not cancelled — the conversation has already been started, and a connect
event arriving after the whole sequence is a no-op (only because the
single-use started flag is set, not because the call ended). -/
theorem c3_amended_theorem (evs : List BotEv) (hwf : wf_fires evs = true)
    (hmem : BotEv.timeout ∈ evs) :
    (run_bot evs).failure_records = [] ∧
    (run_bot evs).task_cancelled = false ∧
    (run_bot evs).conversation_started = true ∧
    bot_step (run_bot evs) BotEv.connect = run_bot evs := by
  have key := bot_wf_run evs botInit false hwf (by intro h; cases h)
    bot_inv_init rfl rfl
  have hstarted : (run_bot evs).conversation_started = true := key.2.2 hmem
  have hinv := bot_inv_foldl evs botInit bot_inv_init
  have hconn : (run_bot evs).transport_connected = true := hinv.2.2 hstarted
  exact ⟨key.1, key.2.1, hstarted, connect_noop _ hstarted hconn⟩

/-- Witness for `c3_amended_theorem` on the sequence
`[safeguard, timeout, connect]`. -/
theorem c3_amended_witness :
    wf_fires [BotEv.safeguard, BotEv.timeout, BotEv.connect] = true ∧
    BotEv.timeout ∈ [BotEv.safeguard, BotEv.timeout, BotEv.connect] ∧
    ((run_bot [BotEv.safeguard, BotEv.timeout, BotEv.connect]).failure_records = [] ∧
     (run_bot [BotEv.safeguard, BotEv.timeout, BotEv.connect]).task_cancelled = false ∧
     (run_bot [BotEv.safeguard, BotEv.timeout, BotEv.connect]).conversation_started = true ∧
     bot_step (run_bot [BotEv.safeguard, BotEv.timeout, BotEv.connect]) BotEv.connect =
       run_bot [BotEv.safeguard, BotEv.timeout, BotEv.connect]) :=
  ⟨by decide, by decide,
   c3_amended_theorem [BotEv.safeguard, BotEv.timeout, BotEv.connect]
     (by decide) (by decide)⟩

/- ===== Helper lemmas: Python dict semantics ===== -/

/-- Looking up the key just set returns the value just set. -/
theorem dict_set_lookup_self {α : Type} (v : α) :
    ∀ (m : List (String × α)) (k : String), (dict_set m k v).lookup k = some v
  | [], k => by simp [dict_set, List.lookup]
  | (k0, v0) :: rest, k => by
      by_cases h : k0 = k
      · simp [dict_set, h, List.lookup]
      · have hbeq : (k == k0) = false := beq_eq_false_iff_ne.mpr (Ne.symm h)
        simp [dict_set, h, List.lookup, hbeq, dict_set_lookup_self v rest k]

/-- Setting one key leaves every other key's lookup unchanged. -/
theorem dict_set_lookup_ne {α : Type} (v : α) :
    ∀ (m : List (String × α)) (k k' : String), k' ≠ k →
      (dict_set m k v).lookup k' = m.lookup k'
  | [], k, k', h => by
      have hbeq : (k' == k) = false := beq_eq_false_iff_ne.mpr h
      simp [dict_set, List.lookup, hbeq]
  | (k0, v0) :: rest, k, k', h => by
      by_cases h0 : k0 = k
      · subst h0
        have hbeq : (k' == k0) = false := beq_eq_false_iff_ne.mpr h
        simp [dict_set, List.lookup, hbeq]
      · by_cases h1 : k' = k0
        · subst h1
          simp [dict_set, h0, List.lookup]
        · have hbeq : (k' == k0) = false := beq_eq_false_iff_ne.mpr h1
          simp [dict_set, h0, List.lookup, hbeq, dict_set_lookup_ne v rest k k' h]

/-- Strategy 1 of the WebSocket resolution: a direct registry hit with
non-empty lead data resolves immediately. -/
theorem ws_resolve_direct (sessions : List (String × SessionData)) (sid : String)
    (sd : SessionData) (h : sessions.lookup sid = some sd) (hld : sd.lead_data ≠ "") :
    ws_resolve sessions sid = some (sd.lead_data, sd.call_id) := by
  simp [ws_resolve, h, hld]

/-- A TwiML store for a different call touches only its own `call_id` and
`CallSid` keys. -/
theorem twiml_store_lookup_ne (s : List (String × SessionData)) (ld2 cid2 sid2 k : String)
    (hk1 : k ≠ cid2) (hk2 : k ≠ sid2) :
    (twiml_store s ld2 cid2 sid2).lookup k = s.lookup k := by
  by_cases hl : ld2 = ""
  · simp [twiml_store, hl]
  · by_cases hc : cid2 = ""
    · simp [twiml_store, hc]
    · by_cases hs : sid2 = ""
      · simp [twiml_store, hl, hc, hs, dict_set_lookup_ne _ _ _ _ hk1]
      · simp only [twiml_store, hl, hc, hs]
        rw [if_pos (by simp [hl, hc]), if_pos (by simp [hs])]
        rw [dict_set_lookup_ne _ _ _ _ hk2, dict_set_lookup_ne _ _ _ _ hk1]

/- ===== Claim C1 ===== -/

/-- Claim C1 as stated is false: the provider stream identifier is never
bound as a resolution key.  After the TwiML webhook stores the session (so
`call_id` and `CallSid` both resolve to the identical session) and the
WebSocket start message binds `StreamSid = "MZ999"` for the same call in the
active-calls tracker, resolving the registry by the stream identifier finds
nothing — neither a direct lookup nor the WebSocket resolution procedure —
while the session was never released. -/
theorem c1_counterexample :
    ((active_store [] "CA123" "MZ999" "call_A" "LEAD_A").lookup "CA123").map
      (fun a => a.stream_sid) = some "MZ999" ∧
    (twiml_store [] "LEAD_A" "call_A" "CA123").lookup "call_A" =
      some { lead_data := "LEAD_A", call_sid := some "CA123", call_id := "call_A" } ∧
    (twiml_store [] "LEAD_A" "call_A" "CA123").lookup "CA123" =
      some { lead_data := "LEAD_A", call_sid := some "CA123", call_id := "call_A" } ∧
    (twiml_store [] "LEAD_A" "call_A" "CA123").lookup "MZ999" = none ∧
    ws_resolve (twiml_store [] "LEAD_A" "call_A" "CA123") "MZ999" = none := by
  decide

/-- Claim C1, amended: one TwiML store binds the same session object under
both the application token (`call_id`) and the provider `CallSid`, so
resolving by either key — directly or through the WebSocket resolution
procedure — returns the identical stored session (same lead context), and
this persists across stores for other calls with disjoint keys (entries are
never released); the stream identifier, however, is never a resolution key. -/
theorem c1_amended_theorem (s : List (String × SessionData))
    (ld cid sid ld2 cid2 sid2 : String)
    (h1 : ld ≠ "") (h2 : cid ≠ "") (h3 : sid ≠ "") (h4 : cid ≠ sid)
    (h5 : cid ≠ cid2) (h6 : cid ≠ sid2) (h7 : sid ≠ cid2) (h8 : sid ≠ sid2) :
    (twiml_store s ld cid sid).lookup cid =
      some { lead_data := ld, call_sid := some sid, call_id := cid } ∧
    (twiml_store s ld cid sid).lookup sid =
      some { lead_data := ld, call_sid := some sid, call_id := cid } ∧
    ws_resolve (twiml_store s ld cid sid) sid = some (ld, cid) ∧
    (twiml_store (twiml_store s ld cid sid) ld2 cid2 sid2).lookup cid =
      some { lead_data := ld, call_sid := some sid, call_id := cid } ∧
    (twiml_store (twiml_store s ld cid sid) ld2 cid2 sid2).lookup sid =
      some { lead_data := ld, call_sid := some sid, call_id := cid } := by
  have hstore : twiml_store s ld cid sid =
      dict_set (dict_set s cid ⟨ld, some sid, cid⟩) sid ⟨ld, some sid, cid⟩ := by
    simp [twiml_store, h1, h2, h3]
  have hcid : (twiml_store s ld cid sid).lookup cid = some ⟨ld, some sid, cid⟩ := by
    rw [hstore, dict_set_lookup_ne _ _ _ _ h4, dict_set_lookup_self]
  have hsid : (twiml_store s ld cid sid).lookup sid = some ⟨ld, some sid, cid⟩ := by
    rw [hstore, dict_set_lookup_self]
  refine ⟨hcid, hsid, ws_resolve_direct _ _ _ hsid h1, ?_, ?_⟩
  · rw [twiml_store_lookup_ne _ _ _ _ _ h5 h6]
    exact hcid
  · rw [twiml_store_lookup_ne _ _ _ _ _ h7 h8]
    exact hsid

/-- Witness for `c1_amended_theorem`: two concrete calls stored in sequence. -/
theorem c1_amended_witness :
    (("LEAD_A" : String) ≠ "" ∧ ("call_A" : String) ≠ "" ∧ ("CA123" : String) ≠ "" ∧
     ("call_A" : String) ≠ "CA123" ∧ ("call_A" : String) ≠ "call_B" ∧
     ("call_A" : String) ≠ "CA456" ∧ ("CA123" : String) ≠ "call_B" ∧
     ("CA123" : String) ≠ "CA456") ∧
    ((twiml_store [] "LEAD_A" "call_A" "CA123").lookup "call_A" =
      some { lead_data := "LEAD_A", call_sid := some "CA123", call_id := "call_A" } ∧
     (twiml_store [] "LEAD_A" "call_A" "CA123").lookup "CA123" =
      some { lead_data := "LEAD_A", call_sid := some "CA123", call_id := "call_A" } ∧
     ws_resolve (twiml_store [] "LEAD_A" "call_A" "CA123") "CA123" =
       some ("LEAD_A", "call_A") ∧
     (twiml_store (twiml_store [] "LEAD_A" "call_A" "CA123")
         "LEAD_B" "call_B" "CA456").lookup "call_A" =
      some { lead_data := "LEAD_A", call_sid := some "CA123", call_id := "call_A" } ∧
     (twiml_store (twiml_store [] "LEAD_A" "call_A" "CA123")
         "LEAD_B" "call_B" "CA456").lookup "CA123" =
      some { lead_data := "LEAD_A", call_sid := some "CA123", call_id := "call_A" }) :=
  ⟨⟨by decide, by decide, by decide, by decide, by decide, by decide, by decide, by decide⟩,
   c1_amended_theorem [] "LEAD_A" "call_A" "CA123" "LEAD_B" "call_B" "CA456"
     (by decide) (by decide) (by decide) (by decide)
     (by decide) (by decide) (by decide) (by decide)⟩

/- ===== Claim C7 ===== -/

/-- Claim C7 as stated is false: for a call that ends with zero captured
messages, the disconnect handler passes the empty transcript straight to the
sales-context analyzer, and the finalized record carries the analyzer's
`no_answer` classification — not the distinct `no_conversation` status,
which lives only in `CallRecorder.analyze_conversation`, a path the
disconnect handler bypasses. -/
theorem c7_counterexample :
    ((on_disconnected empty_recorder [] 120 5).map (fun r => r.call_status)) =
      ["no_answer"] ∧
    (analyze_conversation empty_recorder).call_status = "no_conversation" := by
  decide

/-- Claim C7, amended: for every zero-message call, the disconnect handler
writes exactly one record, whose classification is the analyzer's output on
the empty transcript, `no_answer`; the distinct `no_conversation` status is
produced only by `CallRecorder.analyze_conversation`, which the disconnect
path does not invoke (it calls the analyzer unconditionally instead). -/
theorem c7_amended_theorem (lead : Lead) (t0 : Option Nat) (d : Nat) (cd : Int) :
    ((on_disconnected ⟨lead, t0, [], [], []⟩ [] d cd).map (fun r => r.call_status)) =
      ["no_answer"] ∧
    (analyze_conversation ⟨lead, t0, [], [], []⟩).call_status = "no_conversation" ∧
    (on_disconnected ⟨lead, t0, [], [], []⟩ [] d cd).length = 1 :=
  ⟨rfl, rfl, rfl⟩

/-- Witness for `c7_amended_theorem` at a concrete zero-message session. -/
theorem c7_amended_witness :
    ((on_disconnected ⟨lead_health, some 3, [], [], []⟩ [] 77 9).map
      (fun r => r.call_status)) = ["no_answer"] ∧
    (analyze_conversation ⟨lead_health, some 3, [], [], []⟩).call_status =
      "no_conversation" ∧
    (on_disconnected ⟨lead_health, some 3, [], [], []⟩ [] 77 9).length = 1 :=
  c7_amended_theorem lead_health (some 3) 77 9

/- ===== Claim C8 ===== -/

/-- Claim C8: the retry selection, reconstruction and shared-dispatch logic is
exactly what the claim says — over results containing one `failed` row 2
hours old and one `completed` row, with `maxAge = 24h` the body selects
exactly the failed row, rebuilds it into the dispatcher's Lead shape with
status `retry`, and funnels it through the same `process_leads_batch` path —
but the method is unreachable on any instance: `__init__` rebinds the name
`retry_failed_calls` on the instance to the configuration boolean, which
shadows the method (instance dictionary before class dictionary) and is not
callable, so `manager.retry_failed_calls(24)` raises `TypeError`. -/
theorem c8_theorem :
    py_getattr (init_instance_attrs true) campaign_manager_class_attrs
      "retry_failed_calls" = some (PyAttrVal.pyBool true) ∧
    campaign_manager_class_attrs.lookup "retry_failed_calls" =
      some (PyAttrVal.pyMethod "retry_failed_calls") ∧
    py_is_callable (PyAttrVal.pyBool true) = false ∧
    select_retry_rows [c8_failed_row, c8_completed_row] 100 24 = [c8_failed_row] ∧
    (select_retry_rows [c8_failed_row, c8_completed_row] 100 24).map to_retry_lead =
      [{ lead_health with status := "retry" }] ∧
    retry_failed_calls_body true std_cfg [c8_failed_row, c8_completed_row] 100 24 c8_env =
      RetryResponse.completed 1 1 := by
  decide

/- ===== Claim C9 ===== -/

/-- Claim C9 (confirmed): `start_campaign` invoked while a run is active
returns the `Campaign already running` error dictionary and leaves the whole
state — in particular the active run's attempted/completed/meetings
counters — unchanged. -/
theorem c9_theorem (st : CMState) (env : CampaignEnv) (crit : Option FilterCriteria)
    (h : st.campaign_running = true) :
    start_campaign st env crit = (st, StartResponse.error "Campaign already running") := by
  simp [start_campaign, h]

/-- Witness for `c9_theorem` at a concrete mid-run state. -/
theorem c9_witness :
    (⟨true, 5, 3, 1⟩ : CMState).campaign_running = true ∧
    start_campaign ⟨true, 5, 3, 1⟩ ⟨std_cfg, c5_dispatches, none⟩ none =
      (⟨true, 5, 3, 1⟩, StartResponse.error "Campaign already running") :=
  ⟨rfl, c9_theorem ⟨true, 5, 3, 1⟩ ⟨std_cfg, c5_dispatches, none⟩ none rfl⟩

/- ===== Claim C10 ===== -/

/-- Claim C10 (confirmed): every invocation of `start_campaign` that begins
with the running flag clear ends with it clear — the completed-summary path
and the internal-exception path both reset it before returning, and the
no-pending-leads path returns before ever setting it — so a finished or
failed campaign never causes a later `start_campaign` to be rejected. -/
theorem c10_theorem (st : CMState) (env : CampaignEnv) (crit : Option FilterCriteria)
    (h : st.campaign_running = false) :
    (start_campaign st env crit).1.campaign_running = false := by
  unfold start_campaign
  rw [h]
  by_cases he : env.pending_leads.isEmpty
  · simp [he, h]
  · cases hr : env.raises_msg <;> simp [he, hr]

/-- Witness for `c10_theorem`: a concrete idle-state invocation. -/
theorem c10_witness :
    (⟨false, 0, 0, 0⟩ : CMState).campaign_running = false ∧
    (start_campaign ⟨false, 0, 0, 0⟩ ⟨std_cfg, c5_dispatches, none⟩
        none).1.campaign_running = false :=
  ⟨rfl, c10_theorem ⟨false, 0, 0, 0⟩ ⟨std_cfg, c5_dispatches, none⟩ none rfl⟩
